import Mathlib

/-!
Shallow embedding of the sales-ledger core of `src/main.py`
(master/slave PostgreSQL access layer plus `SalesService` business logic).

Money values (`NUMERIC` columns, Python `Decimal`) are modelled as exact
rationals `ℚ`; timestamps as integers; the visible database content as an
explicit `DBState`.  Each call to `DatabaseManager.execute_write_query`
checks out a connection, runs ONE statement and commits it immediately, so
the embedding threads the state through statement by statement: a statement
that was committed stays visible even when a later statement of the same
service call raises.  Fallible statement execution is modelled by an
injected failure oracle `dbFail : Nat → Bool` giving, per statement index
of the service call, whether the underlying driver raises.
-/

namespace MasterSlave

/-- Row of the `sales_transaction` table (also the `SalesTransaction` model). -/
structure SaleRow where
  transaction_id : Nat
  transaction_time : Int
  cashier_id : Int
  store_id : Int
  payment_method : String
  total_amount : ℚ
  total_discount : ℚ
  customer_id : Option Int
  created_at : Int
deriving DecidableEq, Repr

/-- Row of the `sales_item` table (also the `SalesItem` model). -/
structure ItemRow where
  item_id : Nat
  transaction_id : Nat
  product_code : String
  product_name : String
  category : Option String
  quantity : Int
  unit_price : ℚ
  discount : ℚ
  total_price : ℚ
deriving DecidableEq, Repr

/-- Visible (committed) database content, plus the serial-counter and clock
state the store uses to assign `SERIAL` identities and `created_at`. -/
structure DBState where
  sales : List SaleRow
  items : List ItemRow
  nextTransactionId : Nat
  nextItemId : Nat
  now : Int
deriving DecidableEq, Repr

/-- The `transaction_data` dict handed to `create_transaction`
(the totals entries are computed by the service, not caller-supplied). -/
structure TransactionInput where
  transaction_time : Int
  cashier_id : Int
  store_id : Int
  payment_method : String
  customer_id : Option Int
deriving DecidableEq, Repr

/-- One `item_data` dict: `discount` is an optional key
(`item_data.get('discount', 0)` versus `item_data['discount']`). -/
structure ItemInput where
  product_code : String
  product_name : String
  category : Option String
  quantity : Int
  unit_price : ℚ
  discount : Option ℚ
deriving DecidableEq, Repr

/-- `Decimal(str(item_data.get('discount', 0)))`. -/
def itemDiscount (it : ItemInput) : ℚ := it.discount.getD 0

/-- `item_total = (unit_price * quantity) - discount`. -/
def lineTotal (it : ItemInput) : ℚ := it.unit_price * it.quantity - itemDiscount it

/-- The totals loop of `create_transaction`: accumulates
`total_amount += item_total` and `total_discount += discount` over the items. -/
def totalsOf (itemsData : List ItemInput) : ℚ × ℚ :=
  itemsData.foldl (fun acc it => (acc.1 + lineTotal it, acc.2 + itemDiscount it)) (0, 0)

/-- The parent `INSERT INTO sales_transaction ... RETURNING ...` statement:
the store assigns `transaction_id` (serial) and `created_at`, and the
statement is committed by `execute_write_query` as soon as it succeeds. -/
def insertSaleStmt (st : DBState) (tx : TransactionInput) (ta td : ℚ) :
    SaleRow × DBState :=
  let row : SaleRow :=
    { transaction_id := st.nextTransactionId
      transaction_time := tx.transaction_time
      cashier_id := tx.cashier_id
      store_id := tx.store_id
      payment_method := tx.payment_method
      total_amount := ta
      total_discount := td
      customer_id := tx.customer_id
      created_at := st.now }
  (row, { st with sales := st.sales ++ [row],
                  nextTransactionId := st.nextTransactionId + 1 })

/-- The item loop of `create_transaction`.  For each item: computes
`total_price` from the defaulted discount, then builds the parameter tuple —
which subscripts `item_data['discount']` directly and therefore raises
`KeyError` when the key is absent — and then runs the item `INSERT` as its
own auto-committed `execute_write_query` statement (statement index `k`),
which may raise per the failure oracle.  On any raise the loop stops; the
statements already committed remain visible in the returned state. -/
def insertItems (dbFail : Nat → Bool) (tid : Nat) :
    List ItemInput → Nat → DBState → Except String Unit × DBState
  | [], _, st => (.ok (), st)
  | it :: rest, k, st =>
    match it.discount with
    | none => (.error "KeyError: discount", st)
    | some d =>
      if dbFail k then (.error "item insert failed", st)
      else
        let row : ItemRow :=
          { item_id := st.nextItemId
            transaction_id := tid
            product_code := it.product_code
            product_name := it.product_name
            category := it.category
            quantity := it.quantity
            unit_price := it.unit_price
            discount := d
            total_price := it.unit_price * it.quantity - d }
        insertItems dbFail tid rest (k + 1)
          { st with items := st.items ++ [row], nextItemId := st.nextItemId + 1 }

/-- `SalesService.create_transaction`: computes the totals, inserts the
parent row (statement index 0), then inserts the items one committed
statement at a time (statement indices 1, 2, ...).  Any raise is wrapped
into a generic "Failed to create transaction" error, but statements already
committed stay visible in the returned state. -/
def createTransaction (dbFail : Nat → Bool) (st : DBState)
    (tx : TransactionInput) (itemsData : List ItemInput) :
    Except String SaleRow × DBState :=
  let totals := totalsOf itemsData
  if dbFail 0 then (.error "Failed to create transaction: insert failed", st)
  else
    let r := insertSaleStmt st tx totals.1 totals.2
    match insertItems dbFail r.1.transaction_id itemsData 1 r.2 with
    | (.ok _, st2) => (.ok r.1, st2)
    | (.error e, st2) => (.error ("Failed to create transaction: " ++ e), st2)

/-- `ORDER BY created_at DESC`: row `a` precedes row `b` when `a`'s
creation time is at least `b`'s. -/
def saleDesc (a b : SaleRow) : Prop := b.created_at ≤ a.created_at

instance : DecidableRel saleDesc := fun a b =>
  inferInstanceAs (Decidable (b.created_at ≤ a.created_at))

instance : IsTotal SaleRow saleDesc :=
  ⟨fun a b => (le_total b.created_at a.created_at).imp id id⟩

instance : IsTrans SaleRow saleDesc :=
  ⟨fun _ _ _ hab hbc => le_trans hbc hab⟩

/-- `SalesService.get_transactions`: `SELECT ... FROM sales_transaction
ORDER BY created_at DESC LIMIT page_size OFFSET (page-1)*page_size`. -/
def getTransactions (st : DBState) (page pageSize : Nat) : List SaleRow :=
  let offset := (page - 1) * pageSize
  (((st.sales.insertionSort saleDesc).drop offset).take pageSize)

/-- `SalesService.get_transaction`: single lookup by identity,
`fetchone` giving the row or a not-found signal (`None`). -/
def getTransaction (st : DBState) (tid : Nat) : Option SaleRow :=
  st.sales.find? (fun s => s.transaction_id == tid)

/-- The `SET` clause of the `UPDATE sales_transaction` statement: it
overwrites `transaction_time, cashier_id, store_id, payment_method,
total_amount, customer_id` and leaves `total_discount` and `created_at`
(and the key) untouched. -/
structure UpdateInput where
  transaction_time : Int
  cashier_id : Int
  store_id : Int
  payment_method : String
  total_amount : ℚ
  customer_id : Option Int
deriving DecidableEq, Repr

/-- Apply the `SET` clause to one matching row. -/
def applyUpdate (u : UpdateInput) (s : SaleRow) : SaleRow :=
  { s with transaction_time := u.transaction_time
           cashier_id := u.cashier_id
           store_id := u.store_id
           payment_method := u.payment_method
           total_amount := u.total_amount
           customer_id := u.customer_id }

/-- `SalesService.update_transaction`: one `UPDATE ... WHERE transaction_id
= %s RETURNING ...` statement; the code returns the first returned row as
the updated Sale, or `None` when the statement matched no row. -/
def updateTransaction (st : DBState) (tid : Nat) (u : UpdateInput) :
    Option SaleRow × DBState :=
  let matched := st.sales.filter (fun s => s.transaction_id == tid)
  let newSales := st.sales.map
    (fun s => if s.transaction_id == tid then applyUpdate u s else s)
  ((matched.map (applyUpdate u)).head?, { st with sales := newSales })

/-- `SalesService.delete_transaction`: runs `DELETE FROM sales_transaction
WHERE transaction_id = %s` (the schema's `ON DELETE CASCADE` removes the
Sale's items) inside `try/except`, returning `True` on success and `False`
on any raised failure.  A delete statement matching zero rows executes
without error.  `dbFail` injects a driver failure of the statement. -/
def deleteTransaction (st : DBState) (tid : Nat) (dbFail : Bool) :
    Bool × DBState :=
  if dbFail then (false, st)
  else
    (true, { st with
        sales := st.sales.filter (fun s => !(s.transaction_id == tid)),
        items := st.items.filter (fun i => !(i.transaction_id == tid)) })

/-- Result dict of `SalesService.get_sales_stats`. -/
structure SalesStats where
  total_transactions : Nat
  total_revenue : ℚ
  total_items_sold : Int
  average_transaction_value : ℚ
deriving DecidableEq, Repr

/-- Row set of `FROM sales_transaction st LEFT JOIN sales_item si ON
st.transaction_id = si.transaction_id`: every sale paired with each of its
items, or with `none` when it has no items. -/
def joinRows (st : DBState) : List (SaleRow × Option ItemRow) :=
  st.sales.flatMap (fun s =>
    let its := st.items.filter (fun i => i.transaction_id == s.transaction_id)
    match its with
    | [] => [(s, none)]
    | _ => its.map (fun i => (s, some i)))

/-- `SalesService.get_sales_stats`: the single aggregate query
`COUNT(DISTINCT st.transaction_id)`, `COALESCE(SUM(st.total_amount),0)`,
`COALESCE(SUM(si.quantity),0)`, `COALESCE(AVG(st.total_amount),0)` over the
left-join rows (SQL `SUM`/`AVG` skip NULLs; over an empty row set they are
NULL and `COALESCE` turns them into 0, matching the `or 0` defaults of the
returned dict). -/
def getSalesStats (st : DBState) : SalesStats :=
  let rows := joinRows st
  let amounts := rows.map (fun r => r.1.total_amount)
  { total_transactions := ((rows.map (fun r => r.1.transaction_id)).dedup).length
    total_revenue := amounts.sum
    total_items_sold := (rows.filterMap (fun r => r.2.map (fun i => i.quantity))).sum
    average_transaction_value :=
      if rows.length = 0 then 0 else amounts.sum / rows.length }

/-- `DatabaseManager.check_connection`: starts from
`{"master": False, "slave": False}`, probes `SELECT 1` on the master inside
its own `try/except`, then probes the slave inside a second, independent
`try/except`; each probe's outcome is a parameter. -/
def checkConnection (master slave : Except String Unit) : Bool × Bool :=
  let status := (false, false)
  let status := match master with
    | .ok _ => (true, status.2)
    | .error _ => status
  let status := match slave with
    | .ok _ => (status.1, true)
    | .error _ => status
  status

/-- Modelled from the spec (for comparison with `getSalesStats`): "sum of
`total_amount`" over the Sales themselves, each Sale counted once. -/
def specTotalRevenue (st : DBState) : ℚ :=
  (st.sales.map (fun s => s.total_amount)).sum

/-- Modelled from the spec (for comparison with `getSalesStats`): "average
`total_amount`" over the Sales themselves, zero on an empty store. -/
def specAvgTransactionValue (st : DBState) : ℚ :=
  if st.sales.length = 0 then 0 else specTotalRevenue st / st.sales.length

/-! Helper lemmas -/

lemma totalsOf_go (L : List ItemInput) :
    ∀ a d : ℚ,
      L.foldl (fun acc it => (acc.1 + lineTotal it, acc.2 + itemDiscount it)) (a, d)
        = (a + (L.map lineTotal).sum, d + (L.map itemDiscount).sum) := by
  induction L with
  | nil => intro a d; simp
  | cons it rest ih =>
    intro a d
    simp only [List.foldl_cons, List.map_cons, List.sum_cons, ih]
    exact Prod.ext (by ring) (by ring)

lemma totalsOf_eq (L : List ItemInput) :
    totalsOf L = ((L.map lineTotal).sum, (L.map itemDiscount).sum) := by
  simpa using totalsOf_go L 0 0

lemma insertItems_ok (dbFail : Nat → Bool) (tid : Nat) :
    ∀ (L : List ItemInput) (k : Nat) (st st2 : DBState),
      insertItems dbFail tid L k st = (.ok (), st2) →
      st2.sales = st.sales ∧
      ∃ rows : List ItemRow, st2.items = st.items ++ rows ∧
        rows.length = L.length ∧
        ∀ p ∈ rows.zip L, p.1.transaction_id = tid ∧
          p.1.total_price = p.2.unit_price * p.2.quantity - itemDiscount p.2 := by
  intro L
  induction L with
  | nil =>
    intro k st st2 h
    simp only [insertItems, Prod.mk.injEq] at h
    refine ⟨h.2 ▸ rfl, [], by simp [h.2.symm], rfl, by simp⟩
  | cons it rest ih =>
    intro k st st2 h
    simp only [insertItems] at h
    cases hdisc : it.discount with
    | none => rw [hdisc] at h; simp at h
    | some d =>
      rw [hdisc] at h
      dsimp only at h
      by_cases hf : dbFail k
      · simp [hf] at h
      · rw [if_neg hf] at h
        obtain ⟨hsales, rows, hitems, hlen, hall⟩ := ih (k + 1) _ st2 h
        refine ⟨by simpa using hsales,
          ({ item_id := st.nextItemId, transaction_id := tid,
             product_code := it.product_code, product_name := it.product_name,
             category := it.category, quantity := it.quantity,
             unit_price := it.unit_price, discount := d,
             total_price := it.unit_price * it.quantity - d } : ItemRow) :: rows,
          ?_, by simpa using hlen, ?_⟩
        · simpa [List.append_assoc] using hitems
        · intro p hp
          rw [List.zip_cons_cons] at hp
          rcases List.mem_cons.mp hp with hhead | htail
          · subst hhead
            exact ⟨rfl, by simp [itemDiscount, hdisc]⟩
          · exact hall p htail

/-- C2: whenever `create_transaction` succeeds, the returned Sale's
`total_amount` is the sum over the line items of
`unit_price * quantity - discount` and its `total_discount` is the sum of
the discounts, computed in exact (rational, hence decimal-exact)
arithmetic. -/
theorem claim_C2 (dbFail : Nat → Bool) (st : DBState) (tx : TransactionInput)
    (L : List ItemInput) (sale : SaleRow)
    (hL : L ≠ [])
    (h : (createTransaction dbFail st tx L).fst = .ok sale) :
    sale.total_amount = (L.map lineTotal).sum ∧
    sale.total_discount = (L.map itemDiscount).sum := by
  unfold createTransaction at h
  by_cases h0 : dbFail 0
  · simp [h0] at h
  · rw [if_neg h0] at h
    dsimp only at h
    split at h
    · simp only [Except.ok.injEq] at h
      subst h
      simp [insertSaleStmt, totalsOf_eq]
    · simp at h

/-- C3: whenever `create_transaction` succeeds, exactly `|L|` item rows are
appended to the `sales_item` table, each carrying the new Sale's
`transaction_id`, and each row's `total_price` is its own
`unit_price * quantity - discount`. -/
theorem claim_C3 (dbFail : Nat → Bool) (st : DBState) (tx : TransactionInput)
    (L : List ItemInput) (sale : SaleRow) (st2 : DBState)
    (h : createTransaction dbFail st tx L = (.ok sale, st2)) :
    ∃ rows : List ItemRow,
      st2.items = st.items ++ rows ∧
      rows.length = L.length ∧
      ∀ p ∈ rows.zip L, p.1.transaction_id = sale.transaction_id ∧
        p.1.total_price = p.2.unit_price * p.2.quantity - itemDiscount p.2 := by
  unfold createTransaction at h
  by_cases h0 : dbFail 0
  · simp [h0] at h
  · rw [if_neg h0] at h
    dsimp only at h
    split at h
    case _ heq =>
      simp only [Prod.mk.injEq, Except.ok.injEq] at h
      obtain ⟨hsale, hst2⟩ := h
      subst hsale; subst hst2
      obtain ⟨-, rows, hitems, hlen, hall⟩ := insertItems_ok dbFail _ L 1 _ _ heq
      exact ⟨rows, by simpa [insertSaleStmt] using hitems, hlen, hall⟩
    · simp at h

/-! Concrete fixtures -/

/-- An empty store. -/
def emptyDB : DBState :=
  { sales := [], items := [], nextTransactionId := 1, nextItemId := 1, now := 100 }

/-- A concrete `transaction_data` dict. -/
def txFix : TransactionInput :=
  { transaction_time := 50, cashier_id := 1, store_id := 1,
    payment_method := "Cash", customer_id := none }

/-- Line item `(unit_price=10.00, qty=2, discount=0.00)` from the spec's
example scenario. -/
def itemA : ItemInput :=
  { product_code := "P001", product_name := "Coffee - Americano",
    category := none, quantity := 2, unit_price := 10, discount := some 0 }

/-- Line item `(unit_price=5.50, qty=1, discount=0.50)` from the spec's
example scenario. -/
def itemB : ItemInput :=
  { product_code := "P002", product_name := "Coffee - Latte",
    category := some "Beverages", quantity := 1, unit_price := 11 / 2,
    discount := some (1 / 2) }

/-- A line item whose dict omits the optional `discount` key. -/
def itemNoDiscount : ItemInput :=
  { product_code := "P003", product_name := "Tea - Green",
    category := none, quantity := 1, unit_price := 3, discount := none }

/-- The Sale row `create_transaction` stores for `[itemA, itemB]`. -/
def saleFix : SaleRow :=
  { transaction_id := 1, transaction_time := 50, cashier_id := 1,
    store_id := 1, payment_method := "Cash", total_amount := 25,
    total_discount := 1 / 2, customer_id := none, created_at := 100 }

/-- The item row stored for `itemA` (`total_price = 10*2 - 0 = 20`). -/
def itemRowA : ItemRow :=
  { item_id := 1, transaction_id := 1, product_code := "P001",
    product_name := "Coffee - Americano", category := none, quantity := 2,
    unit_price := 10, discount := 0, total_price := 20 }

/-- The item row stored for `itemB` (`total_price = 5.5*1 - 0.5 = 5`). -/
def itemRowB : ItemRow :=
  { item_id := 2, transaction_id := 1, product_code := "P002",
    product_name := "Coffee - Latte", category := some "Beverages",
    quantity := 1, unit_price := 11 / 2, discount := 1 / 2, total_price := 5 }

/-- The store after the successful creation of `saleFix` with its items. -/
def stFix : DBState :=
  { sales := [saleFix], items := [itemRowA, itemRowB],
    nextTransactionId := 2, nextItemId := 3, now := 100 }

lemma createFix_eq :
    createTransaction (fun _ => false) emptyDB txFix [itemA, itemB]
      = (.ok saleFix, stFix) := by
  simp only [createTransaction, insertSaleStmt, insertItems, totalsOf,
    lineTotal, itemDiscount, emptyDB, txFix, itemA, itemB, saleFix, stFix,
    itemRowA, itemRowB, List.foldl_cons, List.foldl_nil, Bool.false_eq_true,
    if_false, List.nil_append, Option.getD_some]
  norm_num

/-- C1: atomicity fails in the code.  With a two-item list where the second
item's insert statement raises (statement index 2; the parent insert is
statement 0 and the first item insert is statement 1), `create_transaction`
reports an error, yet the parent Sale row and the first item row remain
visible, because every `execute_write_query` call commits its single
statement immediately — there is no enclosing transaction to roll back. -/
theorem claim_C1 :
    (createTransaction (fun n => n == 2) emptyDB txFix [itemA, itemB]).fst.isOk
        = false ∧
    (createTransaction (fun n => n == 2) emptyDB txFix [itemA, itemB]).snd.sales.length
        = 1 ∧
    (createTransaction (fun n => n == 2) emptyDB txFix [itemA, itemB]).snd.items.length
        = 1 := by
  refine ⟨by decide, by decide, by decide⟩

/-- C5: a line item that omits the optional `discount` key is treated as
discount 0 in the totals, but the operation does not succeed: building the
item insert parameters subscripts `item_data['discount']` directly, so the
call raises `KeyError`, no item row is stored — and the already-committed
parent Sale row is left behind. -/
theorem claim_C5 :
    (createTransaction (fun _ => false) emptyDB txFix [itemNoDiscount]).fst.isOk
        = false ∧
    (createTransaction (fun _ => false) emptyDB txFix [itemNoDiscount]).snd.items
        = [] ∧
    (createTransaction (fun _ => false) emptyDB txFix [itemNoDiscount]).snd.sales.length
        = 1 := by
  refine ⟨by decide, by decide, by decide⟩

/-- Witness for C2 at the spec's example scenario, including the exact
decimal values: `total_amount = 20 + 5 = 25` and `total_discount = 0.5`. -/
theorem claim_C2_witness :
    ([itemA, itemB] : List ItemInput) ≠ [] ∧
    (saleFix.total_amount = ([itemA, itemB].map lineTotal).sum ∧
     saleFix.total_discount = ([itemA, itemB].map itemDiscount).sum) :=
  ⟨List.cons_ne_nil _ _,
   claim_C2 (fun _ => false) emptyDB txFix [itemA, itemB] saleFix
     (List.cons_ne_nil _ _)
     (by rw [createFix_eq])⟩

/-- Witness for C3 at the spec's example scenario: two rows are stored,
tagged with the new Sale's identity, with `total_price` 20.00 and 5.00. -/
theorem claim_C3_witness :
    (∃ rows : List ItemRow,
      stFix.items = emptyDB.items ++ rows ∧
      rows.length = ([itemA, itemB] : List ItemInput).length ∧
      ∀ p ∈ rows.zip [itemA, itemB],
        p.1.transaction_id = saleFix.transaction_id ∧
        p.1.total_price = p.2.unit_price * p.2.quantity - itemDiscount p.2) ∧
    stFix.items.map (fun i => i.total_price) = [20, 5] :=
  ⟨claim_C3 (fun _ => false) emptyDB txFix [itemA, itemB] saleFix stFix
     createFix_eq,
   by simp [stFix, itemRowA, itemRowB]⟩

/-- A Sale with identity `tid`, total `amount`, created at time `tid`. -/
def mkSale (tid : Nat) (amount : ℚ) : SaleRow :=
  { transaction_id := tid, transaction_time := 0, cashier_id := 1,
    store_id := 1, payment_method := "Cash", total_amount := amount,
    total_discount := 0, customer_id := none, created_at := Int.ofNat tid }

/-- A one-unit item row with identity `iid` belonging to Sale `tid`. -/
def mkItem (iid tid : Nat) : ItemRow :=
  { item_id := iid, transaction_id := tid, product_code := "P",
    product_name := "P", category := none, quantity := 1, unit_price := 1,
    discount := 0, total_price := 1 }

/-- Store with Sale 1 (`total_amount` 10, two items) and Sale 2
(`total_amount` 20, one item). -/
def stStats : DBState :=
  { sales := [mkSale 1 10, mkSale 2 20],
    items := [mkItem 1 1, mkItem 2 1, mkItem 3 2],
    nextTransactionId := 3, nextItemId := 4, now := 10 }

/-- C4: the aggregate query's `LEFT JOIN` duplicates each Sale once per
line item, so `SUM(st.total_amount)` and `AVG(st.total_amount)` are taken
over the join rows, not over the Sales.  On a store whose Sales have totals
10 (two items) and 20 (one item), the code reports revenue 40 and average
40/3, while the sum and average over the Sales themselves are 30 and 15.
The distinct count, the item-quantity sum, and the all-zero result on an
empty store do hold. -/
theorem claim_C4 :
    (getSalesStats stStats).total_revenue = 40 ∧
    specTotalRevenue stStats = 30 ∧
    (getSalesStats stStats).average_transaction_value = 40 / 3 ∧
    specAvgTransactionValue stStats = 15 ∧
    (getSalesStats stStats).total_transactions = 2 ∧
    (getSalesStats stStats).total_items_sold = 3 ∧
    getSalesStats emptyDB =
      { total_transactions := 0, total_revenue := 0, total_items_sold := 0,
        average_transaction_value := 0 } := by
  refine ⟨?_, ?_, ?_, ?_, ?_, ?_, ?_⟩
  · simp [getSalesStats, joinRows, stStats, mkSale, mkItem]; norm_num
  · simp [specTotalRevenue, stStats, mkSale]; norm_num
  · simp [getSalesStats, joinRows, stStats, mkSale, mkItem]; norm_num
  · simp [specAvgTransactionValue, specTotalRevenue, stStats, mkSale]; norm_num
  · simp [getSalesStats, joinRows, stStats, mkSale, mkItem]
  · simp [getSalesStats, joinRows, stStats, mkSale, mkItem]
  · simp [getSalesStats, joinRows, emptyDB]

/-- C6: `delete_transaction` never propagates an error: it is a total
function into `Bool`.  It returns `true` exactly when the underlying delete
statement did not fail; any failure is swallowed into `false` with no state
change (the failed statement rolls back), and on success every row of the
Sale — and, by the cascade rule, every one of its item rows — is gone. -/
theorem claim_C6 (st : DBState) (tid : Nat) (dbFail : Bool) :
    (deleteTransaction st tid dbFail).fst = !dbFail ∧
    (dbFail = true → deleteTransaction st tid dbFail = (false, st)) ∧
    (∀ s ∈ (deleteTransaction st tid false).snd.sales, s.transaction_id ≠ tid) ∧
    (∀ i ∈ (deleteTransaction st tid false).snd.items, i.transaction_id ≠ tid) := by
  refine ⟨?_, ?_, ?_, ?_⟩
  · cases dbFail <;> simp [deleteTransaction]
  · intro hf; subst hf; simp [deleteTransaction]
  · intro s hs
    simp only [deleteTransaction, Bool.false_eq_true, if_false,
      List.mem_filter] at hs
    simpa using hs.2
  · intro i hi
    simp only [deleteTransaction, Bool.false_eq_true, if_false,
      List.mem_filter] at hi
    simpa using hi.2

/-- Witness for C6: a failing delete on the example store returns `false`
and leaves the store unchanged; a succeeding delete returns `true`. -/
theorem claim_C6_witness :
    deleteTransaction stFix 1 true = (false, stFix) ∧
    (deleteTransaction stFix 1 false).fst = !false :=
  ⟨(claim_C6 stFix 1 true).2.1 rfl, (claim_C6 stFix 1 false).1⟩

lemma head?_filter_eq_find? (p : α → Bool) :
    ∀ l : List α, (l.filter p).head? = l.find? p := by
  intro l
  induction l with
  | nil => rfl
  | cons a l ih =>
    by_cases h : p a <;> simp [List.filter_cons, List.find?_cons, h, ih]

/-- C7: `update_transaction` overwrites exactly the descriptive fields and
the caller-supplied `total_amount` (leaving `total_discount`, `created_at`
and the key untouched) of the Sale with the given identity and returns the
updated Sale; when no row matches it returns the not-found signal `none`
and leaves the store unchanged, and `get_transaction` likewise returns the
Sale or `none`. -/
theorem claim_C7 (st : DBState) (tid : Nat) (u : UpdateInput) :
    ((∀ s ∈ st.sales, s.transaction_id ≠ tid) →
        (updateTransaction st tid u).fst = none ∧
        (updateTransaction st tid u).snd = st ∧
        getTransaction st tid = none) ∧
    (∀ s, getTransaction st tid = some s →
        (updateTransaction st tid u).fst = some (applyUpdate u s) ∧
        (applyUpdate u s).transaction_time = u.transaction_time ∧
        (applyUpdate u s).cashier_id = u.cashier_id ∧
        (applyUpdate u s).store_id = u.store_id ∧
        (applyUpdate u s).payment_method = u.payment_method ∧
        (applyUpdate u s).total_amount = u.total_amount ∧
        (applyUpdate u s).customer_id = u.customer_id ∧
        (applyUpdate u s).total_discount = s.total_discount ∧
        (applyUpdate u s).created_at = s.created_at ∧
        (applyUpdate u s).transaction_id = s.transaction_id) := by
  constructor
  · intro hnone
    have hfilter : st.sales.filter (fun s => s.transaction_id == tid) = [] :=
      List.filter_eq_nil_iff.mpr (fun s hs => by simpa using hnone s hs)
    refine ⟨?_, ?_, ?_⟩
    · simp [updateTransaction, hfilter]
    · have hmap : st.sales.map
          (fun s => if s.transaction_id == tid then applyUpdate u s else s)
            = st.sales := by
        calc st.sales.map
              (fun s => if s.transaction_id == tid then applyUpdate u s else s)
            = st.sales.map id := by
              apply List.map_congr_left
              intro s hs
              simp [if_neg (by simpa using hnone s hs)]
          _ = st.sales := List.map_id st.sales
      have hsnd : (updateTransaction st tid u).snd = { st with sales := st.sales.map (fun s => if s.transaction_id == tid then applyUpdate u s else s) } := rfl
      rw [hsnd, hmap]
    · exact List.find?_eq_none.mpr (fun s hs => by simpa using hnone s hs)
  · intro s hfind
    refine ⟨?_, by simp [applyUpdate], by simp [applyUpdate], by simp [applyUpdate],
      by simp [applyUpdate], by simp [applyUpdate], by simp [applyUpdate],
      by simp [applyUpdate], by simp [applyUpdate], by simp [applyUpdate]⟩
    have h1 : (updateTransaction st tid u).fst
        = ((st.sales.filter (fun x => x.transaction_id == tid)).map
            (applyUpdate u)).head? := rfl
    rw [h1, List.head?_map, head?_filter_eq_find?]
    have h2 : st.sales.find? (fun x => x.transaction_id == tid) = some s := hfind
    rw [h2]
    rfl

/-- The update dict used in the fixtures. -/
def updFix : UpdateInput :=
  { transaction_time := 60, cashier_id := 2, store_id := 3,
    payment_method := "Credit Card", total_amount := 99, customer_id := some 7 }

/-- Witness for C7: on the example store, updating or looking up an absent
identity yields `none`; updating the present identity yields the Sale with
the caller-supplied total. -/
theorem claim_C7_witness :
    (updateTransaction stFix 99 updFix).fst = none ∧
    getTransaction stFix 99 = none ∧
    (updateTransaction stFix 1 updFix).fst = some (applyUpdate updFix saleFix) ∧
    (applyUpdate updFix saleFix).total_amount = updFix.total_amount :=
  ⟨((claim_C7 stFix 99 updFix).1 (by decide)).1,
   ((claim_C7 stFix 99 updFix).1 (by decide)).2.2,
   ((claim_C7 stFix 1 updFix).2 saleFix rfl).1,
   ((claim_C7 stFix 1 updFix).2 saleFix rfl).2.2.2.2.2.1⟩

/-- C9: the health probe returns one boolean per endpoint, the master's
boolean depends only on the master probe outcome and the slave's only on
the slave probe outcome (each probe sits in its own `try/except`, so a
failure never propagates and never affects the other endpoint), and a
reachable master with an unreachable slave reports `(true, false)`. -/
theorem claim_C9 (master slave : Except String Unit) :
    ((checkConnection master slave).fst = true ↔ master = .ok ()) ∧
    ((checkConnection master slave).snd = true ↔ slave = .ok ()) ∧
    checkConnection (.ok ()) (.error "slave unreachable") = (true, false) := by
  refine ⟨?_, ?_, rfl⟩ <;> cases master <;> cases slave <;>
    simp [checkConnection]

/-- C10: a delete statement that matches zero rows executes without error,
so `delete_transaction` on an absent identity still returns `true` (leaving
the Sales unchanged) — the boolean does not distinguish this case from
deleting an existing Sale. -/
theorem claim_C10 (st other : DBState) (tid : Nat)
    (h : ∀ s ∈ st.sales, s.transaction_id ≠ tid) :
    (deleteTransaction st tid false).fst = true ∧
    (deleteTransaction st tid false).snd.sales = st.sales ∧
    (deleteTransaction st tid false).fst = (deleteTransaction other tid false).fst := by
  refine ⟨rfl, ?_, rfl⟩
  simp only [deleteTransaction, Bool.false_eq_true, if_false]
  exact List.filter_eq_self.mpr (fun s hs => by simpa using h s hs)

/-- Witness for C10: identity 999 is absent from the example store, yet the
delete reports `true` and changes nothing. -/
theorem claim_C10_witness :
    (∀ s ∈ stFix.sales, s.transaction_id ≠ 999) ∧
    (deleteTransaction stFix 999 false).fst = true ∧
    (deleteTransaction stFix 999 false).snd.sales = stFix.sales :=
  ⟨by decide, (claim_C10 stFix emptyDB 999 (by decide)).1,
   (claim_C10 stFix emptyDB 999 (by decide)).2.1⟩

/-- C8: the paginated listing returns at most `page_size` rows, the rows
are ordered by creation time descending, and the row at position `i` of the
page is the row at position `(page-1)*page_size + i` of the full
descending-ordered listing (i.e. the page starts at offset
`(page-1)*page_size`). -/
theorem claim_C8 (st : DBState) (page pageSize : Nat) (hp : 1 ≤ page) :
    (getTransactions st page pageSize).length ≤ pageSize ∧
    List.Sorted saleDesc (getTransactions st page pageSize) ∧
    ∀ i : Nat, i < pageSize →
      (getTransactions st page pageSize)[i]? =
        (st.sales.insertionSort saleDesc)[(page - 1) * pageSize + i]? := by
  refine ⟨?_, ?_, ?_⟩
  · exact List.length_take_le pageSize _
  · exact List.Pairwise.sublist
      ((List.take_sublist _ _).trans (List.drop_sublist _ _))
      (List.sorted_insertionSort saleDesc st.sales)
  · intro i hi
    unfold getTransactions
    rw [List.getElem?_take_of_lt hi, List.getElem?_drop]

/-- 15 Sales with creation times 1..15. -/
def st15 : DBState :=
  { sales := (List.range 15).map (fun n => mkSale (n + 1) 1),
    items := [], nextTransactionId := 16, nextItemId := 1, now := 100 }

/-- Witness for C8: page 2 with page size 10 over 15 stored Sales returns
at most 10 rows — in fact exactly the 5 oldest Sales (creation times 5
down to 1), in descending creation order. -/
theorem claim_C8_witness :
    1 ≤ 2 ∧
    (getTransactions st15 2 10).length ≤ 10 ∧
    getTransactions st15 2 10
      = [mkSale 5 1, mkSale 4 1, mkSale 3 1, mkSale 2 1, mkSale 1 1] :=
  ⟨by decide, (claim_C8 st15 2 10 (by decide)).1, by decide⟩

end MasterSlave
